import Mathlib

/-!
Verification of the AskAI code-generation widget
(src/packages/editor-ui/src/components/CodeNodeEditor/AskAI/AskAI.vue).

The component is embedded shallowly: reactive state becomes explicit record
types, the store/composable collaborators become function parameters, and the
side-effecting submission flow becomes a pure function that returns the final
state together with an ordered trace of its observable effects.  JavaScript
values that may be `undefined` are modelled with `Option`; a JavaScript
runtime exception (a property access on `undefined`) is modelled with
`Except`.
-/

namespace AskAI

/-! ### Error classification (lines 60-69)

The i18n collaborator (`i18n.baseText`) resolves locale keys to display
strings; we track the keys themselves, which is faithful because the
component only ever passes distinct literal keys. -/

def generationFailedUnknownMsg : String := "codeNodeEditor.askAi.generationFailedUnknown"

def generationFailedTooLargeMsg : String := "codeNodeEditor.askAi.generationFailedTooLarge"

def generationFailedRateMsg : String := "codeNodeEditor.askAi.generationFailedRate"

def generationFailedTitle : String := "codeNodeEditor.askAi.generationFailed"

def generationCompletedTitle : String := "codeNodeEditor.askAi.generationCompleted"

/-- Lookup in the literal record `errorMessages` of `getErrorMessageByStatusCode`
(keys 400, 413, 429, 500); `none` models an `undefined` index result. -/
def errorMessagesLookup (statusCode : Nat) : Option String :=
  if statusCode = 400 then some generationFailedUnknownMsg
  else if statusCode = 413 then some generationFailedTooLargeMsg
  else if statusCode = 429 then some generationFailedRateMsg
  else if statusCode = 500 then some generationFailedUnknownMsg
  else none

/-- Source lines 60-69: `errorMessages[statusCode] || baseText(generationFailedUnknown)`.
The argument is `Option Nat` because the caller can pass `undefined`
(an absent status); indexing a record with `undefined` yields `undefined`,
and the `||` fallback then applies (all record values are non-empty strings,
hence truthy). -/
def getErrorMessageByStatusCode (statusCode : Option Nat) : String :=
  (statusCode.bind errorMessagesLookup).getD generationFailedUnknownMsg

/-! ### Defensive status read in the catch block (line 185)

The catch block computes `error.httpStatusCode || error?.response.status`.
An error value is modelled as a record whose two relevant properties may each
be absent (`undefined`).  A JavaScript number is falsy exactly when it is 0
(or NaN, which cannot arise for HTTP statuses), so the `||` takes the
right-hand side when `httpStatusCode` is absent or 0.  Crucially the optional
chaining sits on `error`, not on `response`: when `response` is absent the
expression evaluates `undefined.status` and throws a TypeError. -/

structure JsResponse where
  status : Option Nat
deriving DecidableEq, Repr

structure JsError where
  httpStatusCode : Option Nat
  response : Option JsResponse
deriving DecidableEq, Repr

inductive JsException where
  | typeError
deriving DecidableEq, Repr

/-- JavaScript truthiness of a possibly-absent number: `undefined` and 0 are falsy. -/
def numTruthy : Option Nat → Bool
  | some n => n != 0
  | none => false

/-- Source line 185 (and 193): the expression
`error.httpStatusCode || error?.response.status`.  Returns the status value
handed to `getErrorMessageByStatusCode`, or the thrown exception. -/
def readErrorStatus (error : JsError) : Except JsException (Option Nat) :=
  if numTruthy error.httpStatusCode then Except.ok error.httpStatusCode
  else
    match error.response with
    | none => Except.error JsException.typeError
    | some r => Except.ok r.status

/-! ### Theorems for claims C1 and C4 -/

/-- Claim C4: error classification maps 413 to the payload-too-large message,
429 to the rate-limited message, and 400, 500, any other code, and an absent
status all to the same generic-failure message; the three messages are
pairwise distinct. -/
theorem getErrorMessageByStatusCode_classification (s : Option Nat) :
    (getErrorMessageByStatusCode s =
      if s = some 413 then generationFailedTooLargeMsg
      else if s = some 429 then generationFailedRateMsg
      else generationFailedUnknownMsg) ∧
    generationFailedTooLargeMsg ≠ generationFailedUnknownMsg ∧
    generationFailedRateMsg ≠ generationFailedUnknownMsg ∧
    generationFailedTooLargeMsg ≠ generationFailedRateMsg := by
  refine ⟨?_, by decide, by decide, by decide⟩
  match s with
  | none => rfl
  | some n =>
    simp only [getErrorMessageByStatusCode, errorMessagesLookup, Option.bind_some]
    split_ifs <;> simp_all
    split_ifs <;> simp_all

/-- Claim C1 fails on the code: an error value carrying neither a direct
`httpStatusCode` nor a nested `response` makes the status-reading expression
`error.httpStatusCode || error?.response.status` throw a TypeError (the
optional chain guards `error`, not `response`), instead of treating the
status as unknown and falling back to the generic-failure message. -/
theorem readErrorStatus_throws_when_both_absent :
    readErrorStatus { httpStatusCode := none, response := none } =
      Except.error JsException.typeError := rfl

/-! ### Submit enablement (lines 43-58) -/

/-- Modelled from the spec: the prompt length bounds are imported from
`@/constants`, a module of this repository that is not under src/.  The spec
fixes only their roles (a closed interval of allowed prompt lengths, with the
length-16 example prompt within bounds); the concrete values used here are
representative values consistent with the spec. -/
def ASK_AI_MIN_PROMPT_LENGTH : Nat := 15

/-- Modelled from the spec: see `ASK_AI_MIN_PROMPT_LENGTH`.  The textarea in
the template carries this value as its `maxlength` attribute. -/
def ASK_AI_MAX_PROMPT_LENGTH : Nat := 600

inductive CodeExecutionMode where
  | runOnceForAllItems
  | runOnceForEachItem
deriving DecidableEq, Repr

/-- Reactive state read by the `isSubmitEnabled` computed property: the prompt
text, the active node's `parameters.mode` (absent when there is no active
node), and the NDV store's `ndvInputData` (absent models `undefined`, the
`|| []` fallback applies). -/
structure AskAIState where
  prompt : String
  activeNodeMode : Option CodeExecutionMode
  ndvInputData : Option (List Unit)

/-- Source line 50: `(useNDVStore().ndvInputData || []).length > 0`. -/
def hasExecutionData (st : AskAIState) : Bool :=
  decide (0 < (st.ndvInputData.getD []).length)

/-- Source lines 54-58: the active node's execution mode equals
`runOnceForEachItem`. -/
def isEachItemMode (st : AskAIState) : Bool :=
  decide (st.activeNodeMode = some CodeExecutionMode.runOnceForEachItem)

/-- Source lines 43-49:
`!isEachItemMode && prompt.length >= ASK_AI_MIN_PROMPT_LENGTH && hasExecutionData`. -/
def isSubmitEnabled (st : AskAIState) : Bool :=
  !isEachItemMode st &&
    decide (ASK_AI_MIN_PROMPT_LENGTH ≤ st.prompt.length) &&
    hasExecutionData st

/-- Claim C2 (amended): submission is enabled exactly when the execution mode
is not the once-per-item mode, the prompt has at least
`ASK_AI_MIN_PROMPT_LENGTH` characters, and upstream execution data is
present; in particular every prompt shorter than the minimum disables
submission.  No upper length bound is part of the enablement condition. -/
theorem isSubmitEnabled_characterization (st : AskAIState) :
    isSubmitEnabled st = true ↔
      st.activeNodeMode ≠ some CodeExecutionMode.runOnceForEachItem ∧
      ASK_AI_MIN_PROMPT_LENGTH ≤ st.prompt.length ∧
      0 < (st.ndvInputData.getD []).length := by
  simp [isSubmitEnabled, isEachItemMode, hasExecutionData, and_assoc]

/-- Claim C2 as stated is false on the code: a state whose prompt is longer
than `ASK_AI_MAX_PROMPT_LENGTH` still has submission enabled, because the
computed enablement condition contains no upper length bound. -/
theorem isSubmitEnabled_no_max_check :
    isSubmitEnabled
        { prompt := String.mk (List.replicate (ASK_AI_MAX_PROMPT_LENGTH + 1) 'a'),
          activeNodeMode := some CodeExecutionMode.runOnceForAllItems,
          ndvInputData := some [()] } = true ∧
    ASK_AI_MAX_PROMPT_LENGTH <
      (String.mk (List.replicate (ASK_AI_MAX_PROMPT_LENGTH + 1) 'a')).length := by
  have hlen : (String.mk (List.replicate (ASK_AI_MAX_PROMPT_LENGTH + 1) 'a')).length
      = ASK_AI_MAX_PROMPT_LENGTH + 1 := by
    show (List.replicate (ASK_AI_MAX_PROMPT_LENGTH + 1) 'a').length = _
    exact List.length_replicate _ _
  constructor
  · unfold isSubmitEnabled isEachItemMode hasExecutionData
    simp only [hlen]
    simp [hlen, ASK_AI_MIN_PROMPT_LENGTH, ASK_AI_MAX_PROMPT_LENGTH]
  · rw [hlen]
    omega

/-! ### Draft persistence (lines 225-240)

The `useSessionStorage(key, '')` collaborator is a session-scoped total map
from keys to strings whose default value is the empty string; writing the ref
returned by it stores under its key.  The lodash `snakeCase` normalizer is an
external library function and is passed as the parameter `sc`. -/

abbrev SessionStore := String → String

/-- Functional update of the session-scoped store. -/
def setStore (store : SessionStore) (key value : String) : SessionStore :=
  fun k => if k = key then value else store k

/-- Source lines 225-230: the slot key is `ask_ai_prompt__` followed by
`snakeCase((activeNode?.name as string) ?? '')`. -/
def promptStorageKey (sc : String → String) (activeNodeName : Option String) : String :=
  "ask_ai_prompt__" ++ sc (activeNodeName.getD "")

/-- Source lines 232-234: every input event mirrors the new prompt text into
the session-storage slot for the current active node. -/
def onPromptInput (sc : String → String) (activeNodeName : Option String)
    (store : SessionStore) (inputValue : String) : SessionStore :=
  setStore store (promptStorageKey sc activeNodeName) inputValue

/-- Source lines 236-240: on mount the prompt is initialized from the slot
for the current active node (empty-string default is the store's total
fallback). -/
def onMountedPrompt (sc : String → String) (activeNodeName : Option String)
    (store : SessionStore) : String :=
  store (promptStorageKey sc activeNodeName)

/-- Claim C8: storing the draft on an input event and reloading on mount under
the same node name restores the identical text, and an intervening draft
stored under a node name that normalizes to a different key does not affect
that restore. -/
theorem prompt_draft_roundtrip (sc : String → String) (store : SessionStore)
    (n1 n2 t1 t2 : String)
    (hne : promptStorageKey sc (some n2) ≠ promptStorageKey sc (some n1)) :
    onMountedPrompt sc (some n1) (onPromptInput sc (some n1) store t1) = t1 ∧
    onMountedPrompt sc (some n1)
        (onPromptInput sc (some n2) (onPromptInput sc (some n1) store t1) t2) = t1 := by
  constructor
  · unfold onMountedPrompt onPromptInput setStore
    exact if_pos rfl
  · unfold onMountedPrompt onPromptInput setStore
    rw [if_neg (Ne.symm hne)]
    exact if_pos rfl

/-- Concrete instance of `prompt_draft_roundtrip` with the spec's two node
names and the identity normalizer. -/
theorem prompt_draft_roundtrip_witness :
    onMountedPrompt (fun s => s) (some "My Node 1")
        (onPromptInput (fun s => s) (some "My Node 2")
          (onPromptInput (fun s => s) (some "My Node 1") (fun _ => "") "draft one")
          "draft two") =
      "draft one" :=
  (prompt_draft_roundtrip (fun s => s) (fun _ => "") "My Node 1" "My Node 2"
      "draft one" "draft two" (by decide)).2

/-- Claim C10: with no active node the key is derived from the empty string;
given the property of the external normalizer that the empty string maps to
itself, every input event writes to, and every mount reads from, the single
shared slot keyed ask_ai_prompt__ (with two trailing underscores). -/
theorem prompt_key_without_active_node (sc : String → String) (hsc : sc "" = "")
    (store : SessionStore) (t : String) :
    promptStorageKey sc none = "ask_ai_prompt__" ∧
    onPromptInput sc none store t = setStore store "ask_ai_prompt__" t ∧
    onMountedPrompt sc none store = store "ask_ai_prompt__" := by
  have hkey : promptStorageKey sc none = "ask_ai_prompt__" := by
    unfold promptStorageKey
    rw [show (none : Option String).getD "" = "" from rfl, hsc]
    decide
  exact ⟨hkey, by rw [onPromptInput, hkey], by rw [onMountedPrompt, hkey]⟩

/-- Concrete instance of `prompt_key_without_active_node` with the identity
normalizer. -/
theorem prompt_key_without_active_node_witness :
    promptStorageKey (fun s => s) none = "ask_ai_prompt__" ∧
    onMountedPrompt (fun s => s) none (fun _ => "saved") =
      (fun _ => "saved" : SessionStore) "ask_ai_prompt__" :=
  ⟨(prompt_key_without_active_node (fun s => s) rfl (fun _ => "saved") "x").1,
   (prompt_key_without_active_node (fun s => s) rfl (fun _ => "saved") "x").2.2⟩

/-! ### Schema extraction (lines 87-107) -/

structure INodeUi where
  name : String
deriving DecidableEq, Repr

/-- Schema tree from the `Schema` interface of `@/Interface`: a type tag, a
value that is either a leaf string or a list of child schemas, and a path. -/
inductive Schema where
  | mk (ty : String) (value : String ⊕ List Schema) (path : String)

/-- Length of the `value` property as JavaScript reads it: string length for a
leaf, array length for children. -/
def Schema.valueLength : Schema → Nat
  | .mk _ (Sum.inl s) _ => s.length
  | .mk _ (Sum.inr children) _ => children.length

/-- Element shape of the `parentNodesSchemas` array built at lines 89-98. -/
structure NodeSchema where
  nodeName : String
  schema : Schema

/-- Return shape of `getSchemas` (lines 102-106). -/
structure SchemasResult where
  parentNodesNames : List String
  inputSchema : Option NodeSchema
  parentNodesSchemas : List NodeSchema

/-- Mapping step at lines 90-97: pair a parent node's name with the schema
inferred from its input data.  The composable pipeline
`getSchemaForExecutionData(executionDataToJson(getInputDataWithPinned(node)), true)`
is an external collaborator and enters as the parameter `schemaOf`. -/
def nodeSchemaOf (schemaOf : INodeUi → Schema) (node : INodeUi) : NodeSchema :=
  { nodeName := node.name, schema := schemaOf node }

/-- Filter predicate at line 98: `node.schema?.value.length > 0`. -/
def nonEmptySchema (ns : NodeSchema) : Bool :=
  decide (0 < ns.schema.valueLength)

/-- Lines 89-98: map each parent node to its (name, schema) pair, then drop
pairs with an empty schema. -/
def filteredSchemas (schemaOf : INodeUi → Schema) (parentNodes : List INodeUi) :
    List NodeSchema :=
  (parentNodes.map (nodeSchemaOf schemaOf)).filter nonEmptySchema

/-- Source lines 87-107.  The mutating `parentNodesSchemas.shift()` removes
the filtered array's first element and returns it (`undefined` on an empty
array), so the returned record carries the head as `inputSchema` and the tail
as `parentNodesSchemas`. -/
def getSchemas (schemaOf : INodeUi → Schema) (parentNodes : List INodeUi) :
    SchemasResult :=
  { parentNodesNames := parentNodes.map (fun node => node.name)
    inputSchema := (filteredSchemas schemaOf parentNodes).head?
    parentNodesSchemas := (filteredSchemas schemaOf parentNodes).tail }

theorem head_toList_append_tail {α : Type} (xs : List α) :
    xs.head?.toList ++ xs.tail = xs := by
  cases xs <;> rfl

theorem head_filter_eq_find {α : Type} (p : α → Bool) (xs : List α) :
    (xs.filter p).head? = xs.find? p := by
  induction xs with
  | nil => rfl
  | cons a t ih => by_cases h : p a <;> simp [List.filter_cons, h, ih]

/-- Claim C5: schema extraction keeps exactly the non-empty (name, schema)
pairs in traversal order, with the first non-empty one designated as the
primary input schema (absent exactly when every inferred schema is empty) and
the rest, all non-empty, left as auxiliary context; the name list covers all
parent nodes in order. -/
theorem getSchemas_primary_and_auxiliary (schemaOf : INodeUi → Schema)
    (parentNodes : List INodeUi) :
    (getSchemas schemaOf parentNodes).inputSchema.toList ++
        (getSchemas schemaOf parentNodes).parentNodesSchemas =
      filteredSchemas schemaOf parentNodes ∧
    (getSchemas schemaOf parentNodes).inputSchema =
      (parentNodes.map (nodeSchemaOf schemaOf)).find? nonEmptySchema ∧
    ((getSchemas schemaOf parentNodes).inputSchema = none ↔
      ∀ node ∈ parentNodes, (schemaOf node).valueLength = 0) ∧
    (∀ ns ∈ (getSchemas schemaOf parentNodes).parentNodesSchemas,
      0 < ns.schema.valueLength) ∧
    (getSchemas schemaOf parentNodes).parentNodesNames =
      parentNodes.map (fun node => node.name) := by
  refine ⟨head_toList_append_tail _, head_filter_eq_find _ _, ?_, ?_, rfl⟩
  · rw [show (getSchemas schemaOf parentNodes).inputSchema
        = (filteredSchemas schemaOf parentNodes).head? from rfl]
    rw [List.head?_eq_none_iff]
    unfold filteredSchemas
    rw [List.filter_eq_nil_iff]
    constructor
    · intro h node hmem
      have := h (nodeSchemaOf schemaOf node) (List.mem_map_of_mem _ hmem)
      simp [nonEmptySchema, nodeSchemaOf] at this
      omega
    · intro h ns hmem
      rcases List.mem_map.mp hmem with ⟨node, hnode, rfl⟩
      simp [nonEmptySchema, nodeSchemaOf, h node hnode]
  · intro ns hmem
    have hmem2 : ns ∈ filteredSchemas schemaOf parentNodes :=
      (List.tail_sublist _).mem hmem
    have := (List.mem_filter.mp hmem2).2
    simpa [nonEmptySchema] using this

/-! ### Loading animation driver (lines 198-223)

The `step` closure mutates `start` and `lastPhraseChange` (captured locals)
and the reactive `loadingPhraseIndex` and `loaderProgress`; we gather all
four into a state record.  Timestamps and progress are DOMHighResTimeStamp
values, modelled as rationals. -/

structure AnimState where
  start : Option Rat
  lastPhraseChange : Rat
  loadingPhraseIndex : Nat
  loaderProgress : Rat
deriving DecidableEq, Repr

/-- Local constant at line 199. -/
def loadingPhraseUpdateMs : Rat := 2000

/-- Local constant at line 200. -/
def loadingPhrasesCount : Nat := 8

/-- One execution of the `step` frame callback (lines 203-219).
`durationMs` models `ASK_AI_LOADING_DURATION_MS`, a constant imported from
`@/constants` (not under src/) and therefore left abstract.  `randPhrase`
models the `Math.random()` draw: an arbitrary natural taken modulo the phrase
count, matching `Math.floor(Math.random() * loadingPhrasesCount)`.
`isLoading` is the value of the reactive ref when the frame runs.  The Boolean
result records whether the callback called `window.requestAnimationFrame`
again.  Note the falsy checks: `if (!start)` and `!lastPhraseChange` treat 0
like the unset value. -/
def stepFrame (durationMs : Rat) (randPhrase : Nat) (isLoading : Bool)
    (st : AnimState) (timestamp : Rat) : AnimState × Bool :=
  let start : Rat :=
    match st.start with
    | none => timestamp
    | some s => if s = 0 then timestamp else s
  let phraseDue : Bool :=
    decide (st.lastPhraseChange = 0) ||
      decide (loadingPhraseUpdateMs ≤ timestamp - st.lastPhraseChange)
  let loadingPhraseIndex : Nat :=
    if phraseDue then randPhrase % loadingPhrasesCount else st.loadingPhraseIndex
  let lastPhraseChange : Rat := if phraseDue then timestamp else st.lastPhraseChange
  let elapsed : Rat := timestamp - start
  let loaderProgress : Rat := min (elapsed / durationMs * 100) 100
  let reschedule : Bool :=
    isLoading &&
      (decide (loaderProgress < 100) ||
        decide (timestamp < lastPhraseChange + loadingPhraseUpdateMs))
  (⟨some start, lastPhraseChange, loadingPhraseIndex, loaderProgress⟩, reschedule)

/-- Frame-by-frame run of the loop: each entry is one scheduled frame
(timestamp, random draw, value of `isLoading` at that frame); the result is
the number of frames executed before the loop stopped rescheduling.  A frame
only runs because the previous one rescheduled, so the run stops at the first
frame whose callback does not re-arm. -/
def runLoop (durationMs : Rat) : AnimState → List (Rat × Nat × Bool) → Nat
  | _, [] => 0
  | st, (ts, r, loading) :: rest =>
    let res := stepFrame durationMs r loading st ts
    if res.2 then 1 + runLoop durationMs res.1 rest else 1

/-- Claim C9: a frame reschedules the loop exactly when `isLoading` is true
and (the displayed progress is below 100 or a phrase change is still pending);
a frame that observes `isLoading = false` never reschedules, so once
`isLoading` flips false the loop executes at most the one frame already
scheduled and stops. -/
theorem triggerLoadingChange_reschedule_policy (durationMs : Rat)
    (randPhrase : Nat) (isLoading : Bool) (st : AnimState) (timestamp : Rat) :
    ((stepFrame durationMs randPhrase isLoading st timestamp).2 = true ↔
      isLoading = true ∧
        ((stepFrame durationMs randPhrase isLoading st timestamp).1.loaderProgress < 100 ∨
          timestamp <
            (stepFrame durationMs randPhrase isLoading st timestamp).1.lastPhraseChange +
              loadingPhraseUpdateMs)) ∧
    (isLoading = false →
      (stepFrame durationMs randPhrase isLoading st timestamp).2 = false) ∧
    ∀ frames : List (Rat × Nat × Bool), (∀ f ∈ frames, f.2.2 = false) →
      runLoop durationMs st frames ≤ 1 := by
  refine ⟨?_, ?_, ?_⟩
  · simp only [stepFrame, Bool.and_eq_true, Bool.or_eq_true, decide_eq_true_eq]
  · intro h
    simp [stepFrame, h]
  · intro frames h
    match frames with
    | [] => simp [runLoop]
    | (ts, r, loading) :: rest =>
      have hl : loading = false := h (ts, r, loading) (List.mem_cons_self _ _)
      subst hl
      simp [runLoop, stepFrame]

/-- Concrete instance of `triggerLoadingChange_reschedule_policy`: with
`isLoading` already false, the scheduled frame does not re-arm and a run over
two pending frames executes at most one. -/
theorem triggerLoadingChange_reschedule_policy_witness :
    (stepFrame 12000 3 false
        { start := none, lastPhraseChange := 0, loadingPhraseIndex := 0,
          loaderProgress := 0 } 16).2 = false ∧
    runLoop 12000
        { start := none, lastPhraseChange := 0, loadingPhraseIndex := 0,
          loaderProgress := 0 } [(16, 3, false), (32, 4, false)] ≤ 1 :=
  ⟨(triggerLoadingChange_reschedule_policy 12000 3 false
      { start := none, lastPhraseChange := 0, loadingPhraseIndex := 0,
        loaderProgress := 0 } 16).2.1 rfl,
   (triggerLoadingChange_reschedule_policy 12000 3 false
      { start := none, lastPhraseChange := 0, loadingPhraseIndex := 0,
        loaderProgress := 0 } 16).2.2 [(16, 3, false), (32, 4, false)] (by decide)⟩

/-! ### Submission flow (lines 109-197)

The flow's observable behaviour is its ordered trace of collaborator calls
and emissions, plus the loading state it leaves behind.  Each constructor
below corresponds to one side effect at the cited source line. -/

inductive Effect where
  | telemetry (event : String)
  | alertShown
  | emitStartedLoading
  | startAnimation
  | apiCall (question : String)
  | emitFinishedLoading
  | scheduleSetLoadingFalse (delayMs : Nat)
  | emitReplaceCode (code : String)
  | message (msgType : String) (title : String) (content : Option String)
deriving DecidableEq, Repr

/-- Usage record of the generation response (line 177 reads total_tokens). -/
structure GenUsage where
  total_tokens : Option Nat
deriving DecidableEq, Repr

/-- Resolution value of `generateCodeForPrompt` (line 160): the generated code
and an optional usage record. -/
structure GenResult where
  code : String
  usage : Option GenUsage
deriving DecidableEq, Repr

/-- Loading flag and progress owned by the component. -/
structure LoadingState where
  loaderProgress : Rat
  isLoading : Bool
deriving DecidableEq, Repr

/-- Source lines 109-115: emit startedLoading, reset progress to 0, set
isLoading true, start the animation loop. -/
def startLoading : LoadingState × List Effect :=
  ({ loaderProgress := 0, isLoading := true },
   [Effect.emitStartedLoading, Effect.startAnimation])

/-- Source lines 117-124: set progress to 100, emit finishedLoading, and
schedule `isLoading := false` to run 200ms later. -/
def stopLoading (st : LoadingState) : LoadingState × List Effect :=
  ({ st with loaderProgress := 100 },
   [Effect.emitFinishedLoading, Effect.scheduleSetLoadingFalse 200])

/-- Source lines 126-197.  Parameters supply the collaborators' behaviour for
this invocation: the NDV store's active node, the `hasChanges` prop, the
confirmation dialog's answer, the prompt text, and the settled outcome of the
`generateCodeForPrompt` call (`Except.error` models a rejected promise, with
the rejection value).  The result is the final loading state, the ordered
effect trace, and the exception that escaped the flow, if any. -/
def onSubmit (activeNode : Option INodeUi) (hasChanges : Bool)
    (confirmAnswer : String) (promptText : String)
    (apiResult : Except JsError GenResult) (st : LoadingState) :
    LoadingState × List Effect × Option JsException :=
  match activeNode with
  | none => (st, [], none)
  | some _ =>
    let clickedTrace := [Effect.telemetry "ask.generationClicked"]
    if hasChanges && (confirmAnswer == "cancel") then
      (st, clickedTrace ++ [Effect.alertShown], none)
    else
      let confirmTrace := if hasChanges then [Effect.alertShown] else []
      let startRes := startLoading
      let preCall :=
        clickedTrace ++ confirmTrace ++ startRes.2 ++ [Effect.apiCall promptText]
      match apiResult with
      | Except.ok res =>
        let stopRes := stopLoading startRes.1
        (stopRes.1,
         preCall ++ stopRes.2 ++
           [Effect.emitReplaceCode res.code,
            Effect.message "success" generationCompletedTitle none,
            Effect.telemetry "askAi.generationFinished"],
         none)
      | Except.error err =>
        match readErrorStatus err with
        | Except.error ex => (startRes.1, preCall, some ex)
        | Except.ok status =>
          let stopRes := stopLoading startRes.1
          (stopRes.1,
           preCall ++
             [Effect.message "error" generationFailedTitle
                (some (getErrorMessageByStatusCode status)),
              Effect.telemetry "askAi.generationFinished"] ++ stopRes.2,
           none)

/-- Claim C7: when the API call resolves, the flow emits exactly one
replaceCode event and it carries the exact returned code string, sets
progress to 100, schedules isLoading to become false after a 200ms delay,
shows exactly one notification and it is the success notification, and no
exception escapes. -/
theorem onSubmit_success_effects (node : INodeUi) (hasChanges : Bool)
    (confirmAnswer : String) (promptText : String) (res : GenResult)
    (st : LoadingState)
    (hconfirm : hasChanges = true → confirmAnswer ≠ "cancel") :
    ((onSubmit (some node) hasChanges confirmAnswer promptText (Except.ok res)
        st).2.1.filter (fun e => match e with
          | Effect.emitReplaceCode _ => true
          | _ => false)) = [Effect.emitReplaceCode res.code] ∧
    (onSubmit (some node) hasChanges confirmAnswer promptText (Except.ok res)
        st).1.loaderProgress = 100 ∧
    ((onSubmit (some node) hasChanges confirmAnswer promptText (Except.ok res)
        st).2.1.count (Effect.scheduleSetLoadingFalse 200)) = 1 ∧
    ((onSubmit (some node) hasChanges confirmAnswer promptText (Except.ok res)
        st).2.1.filter (fun e => match e with
          | Effect.message _ _ _ => true
          | _ => false)) =
      [Effect.message "success" generationCompletedTitle none] ∧
    (onSubmit (some node) hasChanges confirmAnswer promptText (Except.ok res)
        st).2.2 = none := by
  match hasChanges with
  | false =>
    refine ⟨?_, ?_, ?_, ?_, ?_⟩ <;>
      simp [onSubmit, startLoading, stopLoading, List.filter, List.count_cons]
  | true =>
    have hc : ¬(confirmAnswer = "cancel") := hconfirm rfl
    refine ⟨?_, ?_, ?_, ?_, ?_⟩ <;>
      simp [onSubmit, startLoading, stopLoading, hc, List.filter, List.count_cons]

/-- Concrete instance of `onSubmit_success_effects`: the spec's end-to-end
scenario (prompt of length 16, no unsaved changes, call resolves with
`return a+b`). -/
theorem onSubmit_success_effects_witness :
    ((onSubmit (some { name := "Code" }) false "ok" "add two numbers."
        (Except.ok { code := "return a+b", usage := none })
        { loaderProgress := 0, isLoading := false }).2.1.filter
          (fun e => match e with
            | Effect.emitReplaceCode _ => true
            | _ => false)) = [Effect.emitReplaceCode "return a+b"] ∧
    (onSubmit (some { name := "Code" }) false "ok" "add two numbers."
        (Except.ok { code := "return a+b", usage := none })
        { loaderProgress := 0, isLoading := false }).1.loaderProgress = 100 ∧
    ((onSubmit (some { name := "Code" }) false "ok" "add two numbers."
        (Except.ok { code := "return a+b", usage := none })
        { loaderProgress := 0, isLoading := false }).2.1.count
          (Effect.scheduleSetLoadingFalse 200)) = 1 ∧
    ((onSubmit (some { name := "Code" }) false "ok" "add two numbers."
        (Except.ok { code := "return a+b", usage := none })
        { loaderProgress := 0, isLoading := false }).2.1.filter
          (fun e => match e with
            | Effect.message _ _ _ => true
            | _ => false)) =
      [Effect.message "success" generationCompletedTitle none] ∧
    (onSubmit (some { name := "Code" }) false "ok" "add two numbers."
        (Except.ok { code := "return a+b", usage := none })
        { loaderProgress := 0, isLoading := false }).2.2 = none :=
  onSubmit_success_effects { name := "Code" } false "ok" "add two numbers."
    { code := "return a+b", usage := none }
    { loaderProgress := 0, isLoading := false } (fun h => Bool.noConfusion h)

/-- Claim C3 fails on the code: when the API call rejects with an error value
carrying neither httpStatusCode nor response, computing the status inside the
catch block itself throws, so the exception escapes the submission flow,
no notification is shown after the API call, and the loading teardown never
runs (progress stays 0, isLoading stays true, no reset is scheduled). -/
theorem onSubmit_unclassifiable_error_escapes :
    onSubmit (some { name := "Code" }) false "" "prompt"
        (Except.error { httpStatusCode := none, response := none })
        { loaderProgress := 0, isLoading := false } =
      ({ loaderProgress := 0, isLoading := true },
       [Effect.telemetry "ask.generationClicked", Effect.emitStartedLoading,
        Effect.startAnimation, Effect.apiCall "prompt"],
       some JsException.typeError) := by
  decide

/-! ### Parent-node extraction (lines 71-85) -/

/-- Entry of the array returned by `workflow.getParentNodesByDepth`: a
connected-node reference carrying a name (the source reads only `.name`). -/
structure ConnectedNode where
  name : String
deriving DecidableEq, Repr

/-- View of the workflow store that `getParentNodes` uses: the graph
traversal `getParentNodesByDepth` and the resolver `getNodeByName`, both
external collaborators whose implementations live outside src/. -/
structure WorkflowModel where
  getParentNodesByDepth : String → List ConnectedNode
  getNodeByName : String → Option INodeUi

/-- Filter step at lines 80-82.  The JS `Array.filter` callback receives the
element, its index, and the whole array, so the dedup clause
`nodes.findIndex((node) => node.name === name) === i` keeps an element
exactly when its index is the first index carrying its name; `enum` supplies
the index. -/
def dedupByFirstName (act : String) (nodes : List ConnectedNode) :
    List ConnectedNode :=
  (nodes.enum.filter (fun p =>
      p.2.name != act && (nodes.findIdx (fun m => m.name == p.2.name) == p.1))).map
    (fun p => p.2)

/-- Source lines 71-85: guard against a missing active node or workflow, drop
self-references and later duplicate names from the depth-ordered ancestor
list, then resolve each name through `getNodeByName`, dropping `null`
results (`filterMap`). -/
def getParentNodes (activeNode : Option INodeUi)
    (workflow : Option WorkflowModel) : List INodeUi :=
  match activeNode, workflow with
  | some node, some wf =>
    (dedupByFirstName node.name (wf.getParentNodesByDepth node.name)).filterMap
      (fun n => wf.getNodeByName n.name)
  | _, _ => []

theorem mem_dedupByFirstName (act : String) (l : List ConnectedNode)
    (n : ConnectedNode) :
    n ∈ dedupByFirstName act l ↔
      n.name ≠ act ∧ l[l.findIdx (fun m => m.name == n.name)]? = some n := by
  unfold dedupByFirstName
  simp only [List.mem_map, List.mem_filter, List.mem_enum_iff_getElem?,
    Bool.and_eq_true, bne_iff_ne, beq_iff_eq, Nat.beq_eq_true_eq]
  constructor
  · rintro ⟨p, ⟨hget, hname, hidx⟩, rfl⟩
    exact ⟨hname, by rw [hidx]; exact hget⟩
  · rintro ⟨hname, hget⟩
    exact ⟨(l.findIdx (fun m => m.name == n.name), n), ⟨hget, hname, rfl⟩, rfl⟩

theorem dedupByFirstName_names_nodup (act : String) (l : List ConnectedNode) :
    ((dedupByFirstName act l).map (fun n => n.name)).Nodup := by
  unfold dedupByFirstName
  rw [List.map_map]
  have henum : l.enum.Pairwise (fun p q => p.1 ≠ q.1) := by
    have h1 : (l.enum.map Prod.fst).Nodup := by
      rw [List.enum_map_fst]; exact List.nodup_range _
    exact List.pairwise_map.mp h1
  have hfl : (l.enum.filter (fun p =>
      p.2.name != act && (l.findIdx (fun m => m.name == p.2.name) == p.1))).Pairwise
        (fun p q => p.1 ≠ q.1) :=
    henum.sublist (List.filter_sublist _)
  have hnames : (l.enum.filter (fun p =>
      p.2.name != act && (l.findIdx (fun m => m.name == p.2.name) == p.1))).Pairwise
        (fun p q => p.2.name ≠ q.2.name) := by
    refine hfl.imp_of_mem ?_
    intro p q hp hq hne hnameeq
    have hp2 := (List.mem_filter.mp hp).2
    have hq2 := (List.mem_filter.mp hq).2
    simp only [Bool.and_eq_true, bne_iff_ne, beq_iff_eq, Nat.beq_eq_true_eq] at hp2 hq2
    exact hne (hp2.2 ▸ hq2.2 ▸ hnameeq ▸ rfl)
  rw [List.Nodup, List.pairwise_map]
  exact hnames

theorem dedupByFirstName_names_sublist (act : String) (l : List ConnectedNode) :
    ((dedupByFirstName act l).map (fun n => n.name)).Sublist
      (l.map (fun n => n.name)) := by
  unfold dedupByFirstName
  rw [List.map_map]
  have h1 : (l.enum.filter (fun p =>
      p.2.name != act && (l.findIdx (fun m => m.name == p.2.name) == p.1))).Sublist
        l.enum := List.filter_sublist _
  have h2 := h1.map (fun p : Nat × ConnectedNode => p.2.name)
  have h3 : l.enum.map (fun p : Nat × ConnectedNode => p.2.name)
      = l.map (fun n => n.name) := by
    rw [show (fun p : Nat × ConnectedNode => p.2.name)
        = (fun n : ConnectedNode => n.name) ∘ Prod.snd from rfl]
    rw [← List.map_map, List.enum_map_snd]
  rwa [h3] at h2

theorem resolve_names_sublist (r : String → Option INodeUi)
    (hr : ∀ s n, r s = some n → n.name = s) (l : List ConnectedNode) :
    ((l.filterMap (fun n => r n.name)).map (fun n => n.name)).Sublist
      (l.map (fun n => n.name)) := by
  induction l with
  | nil => simp
  | cons a t ih =>
    rw [List.filterMap_cons]
    cases h : r a.name with
    | none =>
      simp only [List.map_cons]
      exact ih.cons _
    | some m =>
      simp only [List.map_cons, hr _ _ h]
      exact ih.cons₂ _

/-- Claim C6: parent-node extraction never returns the active node's name nor
a duplicate name, preserves the traversal order of the depth-listed
ancestors, and (given that the resolver returns a node with the queried name
when it succeeds) its result names are exactly the resolvable listed names
other than the active node's own. -/
theorem getParentNodes_dedup_and_exclusion (a : INodeUi) (wf : WorkflowModel)
    (hres : ∀ s n, wf.getNodeByName s = some n → n.name = s) :
    ((getParentNodes (some a) (some wf)).map (fun n => n.name)).Nodup ∧
    a.name ∉ (getParentNodes (some a) (some wf)).map (fun n => n.name) ∧
    ((getParentNodes (some a) (some wf)).map (fun n => n.name)).Sublist
      ((wf.getParentNodesByDepth a.name).map (fun n => n.name)) ∧
    ∀ x : String,
      x ∈ (getParentNodes (some a) (some wf)).map (fun n => n.name) ↔
        x ≠ a.name ∧
          x ∈ (wf.getParentNodesByDepth a.name).map (fun n => n.name) ∧
          ∃ m, wf.getNodeByName x = some m := by
  have hresult : getParentNodes (some a) (some wf)
      = (dedupByFirstName a.name (wf.getParentNodesByDepth a.name)).filterMap
          (fun n => wf.getNodeByName n.name) := rfl
  have hsub1 := resolve_names_sublist wf.getNodeByName hres
    (dedupByFirstName a.name (wf.getParentNodesByDepth a.name))
  refine ⟨?_, ?_, ?_, ?_⟩
  · rw [hresult]
    exact (dedupByFirstName_names_nodup a.name _).sublist hsub1
  · rw [hresult]
    intro hmem
    rcases List.mem_map.mp hmem with ⟨m, hm, hname⟩
    rcases List.mem_filterMap.mp hm with ⟨n, hn, hrn⟩
    have h1 := (mem_dedupByFirstName _ _ _).mp hn
    exact h1.1 (by rw [← hres _ _ hrn, hname])
  · rw [hresult]
    exact hsub1.trans (dedupByFirstName_names_sublist _ _)
  · intro x
    rw [hresult]
    constructor
    · intro hmem
      rcases List.mem_map.mp hmem with ⟨m, hm, hname⟩
      rcases List.mem_filterMap.mp hm with ⟨n, hn, hrn⟩
      have h1 := (mem_dedupByFirstName _ _ _).mp hn
      have h2 : n.name = x := by rw [← hres _ _ hrn, hname]
      subst h2
      refine ⟨h1.1, ?_, m, hrn⟩
      have : n ∈ wf.getParentNodesByDepth a.name := by
        have := h1.2
        exact List.getElem?_mem this
      exact List.mem_map.mpr ⟨n, this, rfl⟩
    · rintro ⟨hxa, hxmem, m, hm⟩
      rcases List.mem_map.mp hxmem with ⟨ref, href, hrefname⟩
      have hex : ∃ e ∈ wf.getParentNodesByDepth a.name,
          (fun c : ConnectedNode => c.name == x) e := ⟨ref, href, by simp [hrefname]⟩
      have hlt := List.findIdx_lt_length_of_exists hex
      have hpe : (fun c : ConnectedNode => c.name == x)
          ((wf.getParentNodesByDepth a.name)[(wf.getParentNodesByDepth
            a.name).findIdx (fun c => c.name == x)]) = true :=
        @List.findIdx_getElem _ (fun c : ConnectedNode => c.name == x)
          (wf.getParentNodesByDepth a.name) hlt
      set e := (wf.getParentNodesByDepth a.name)[(wf.getParentNodesByDepth
        a.name).findIdx (fun c => c.name == x)] with he
      have hename : e.name = x := by simpa using hpe
      have hmemdedup : e ∈ dedupByFirstName a.name (wf.getParentNodesByDepth a.name) := by
        rw [mem_dedupByFirstName]
        refine ⟨by rw [hename]; exact hxa, ?_⟩
        rw [hename]
        exact List.getElem?_eq_getElem hlt
      have hmres : m ∈ (dedupByFirstName a.name
          (wf.getParentNodesByDepth a.name)).filterMap
            (fun n => wf.getNodeByName n.name) :=
        List.mem_filterMap.mpr ⟨e, hmemdedup, by rw [hename]; exact hm⟩
      exact List.mem_map.mpr ⟨m, hmres, hres _ _ hm⟩

/-- Diamond-shaped workflow from the spec's example: edges A→B→D and A→C→D.
With D as the active node the depth-ordered ancestor list reaches A twice
(once through B, once through C) and also lists the active node itself. -/
def diamondWorkflow : WorkflowModel :=
  { getParentNodesByDepth := fun _ =>
      [{ name := "B" }, { name := "C" }, { name := "A" }, { name := "A" },
       { name := "D" }]
    getNodeByName := fun s =>
      if s = "A" then some { name := "A" }
      else if s = "B" then some { name := "B" }
      else if s = "C" then some { name := "C" }
      else if s = "D" then some { name := "D" }
      else none }

/-- Concrete instance of `getParentNodes_dedup_and_exclusion` on the diamond
workflow: the extracted names are duplicate-free, exclude the active node D,
and contain the doubly-listed ancestor A (hence exactly once). -/
theorem getParentNodes_dedup_and_exclusion_witness :
    ((getParentNodes (some { name := "D" }) (some diamondWorkflow)).map
        (fun n => n.name)).Nodup ∧
    "D" ∉ (getParentNodes (some { name := "D" }) (some diamondWorkflow)).map
        (fun n => n.name) ∧
    ("A" ∈ (getParentNodes (some { name := "D" }) (some diamondWorkflow)).map
        (fun n => n.name) ↔
      "A" ≠ "D" ∧
        "A" ∈ (diamondWorkflow.getParentNodesByDepth "D").map (fun n => n.name) ∧
        ∃ m, diamondWorkflow.getNodeByName "A" = some m) := by
  have H := getParentNodes_dedup_and_exclusion { name := "D" } diamondWorkflow
    (by
      intro s n h
      unfold diamondWorkflow at h
      dsimp only at h
      split_ifs at h with h1 h2 h3 h4
      all_goals cases h
      all_goals simp_all)
  exact ⟨H.1, H.2.1, H.2.2.2 "A"⟩

end AskAI
